import Mathlib

/-!
Verification of the episode resolution and deduplication engine of the
my-nyaa-downloader repository, against its natural-language specification.

The definitions below are a shallow embedding of the TypeScript source:
  * `src/utils/episode.ts`   — pattern validation/resolution, episode identity
                               extraction, the four duplicate-resolution
                               filters, and the cleanup handler;
  * `src/utils/patterns.ts`  — the default extraction patterns and the
                               resolution / HEVC / version matching patterns;
  * `src/services/download.ts` — the filter chain of
                               `handleDownloadingNewEpisodes` (lines 49-63).

JavaScript regular expressions are embedded as executable Lean functions on
character lists that implement the exact leftmost-match semantics of the
concrete patterns appearing in the source.  JavaScript `Map` becomes an
association list with `Map.set` replace-or-append semantics, and the
module-level mutable `cleanupEpisodes` map becomes explicit state threaded
through the filter runners.
-/

-- ============================================================================
-- DATA MODEL (src/types/index.ts)
-- ============================================================================

/-- A scraped search result (`TorrentData` in `src/types/index.ts`).
Timestamps are integer seconds since epoch. -/
structure TorrentData where
  title : String
  magnetLink : String
  size : String
  timestamp : Nat
deriving DecidableEq, Repr

/-- One tracked series' configuration (`DownloadEntry`).  The optional custom
pattern is the raw textual expression. -/
structure DownloadEntry where
  folder : String
  uploader : String
  query : String
  complete : Bool
  pattern : Option String
deriving Repr

/-- An identity-tagged scraped record (`ResolvedEpisode` in
`src/utils/episode.ts`).  The `pattern` field of the source record is not
needed by the duplicate-resolution engine and is not carried here. -/
structure ResolvedEpisode where
  title : String
  magnetLink : String
  size : String
  timestamp : Nat
  seasonNumber : Int
  episodeNumber : String
  episodeKey : Option String
  isValid : Bool
deriving DecidableEq, Repr

/-- Per-episode-key cleanup record (`EpisodeAttributes`).  Fields other than
`season` are present only once the corresponding filter has flagged the key. -/
structure EpisodeAttributes where
  season : Int
  resolution : Option Nat := none
  encoding : Option String := none
  version : Option Nat := none
  timestamp : Option Nat := none
deriving DecidableEq, Repr

/-- A partial attribute record, as passed to `flagEpisodesForCleanup`
(each call site of the source sets exactly one field). -/
structure PartialAttributes where
  resolution : Option Nat := none
  encoding : Option String := none
  version : Option Nat := none
  timestamp : Option Nat := none
deriving DecidableEq, Repr

/-- The module-level `cleanupEpisodes : Map<string, EpisodeAttributes>`,
embedded as an insertion-ordered association list. -/
abbrev CleanupMap := List (String × EpisodeAttributes)

-- ============================================================================
-- STRING / NUMBER HELPERS (JavaScript semantics)
-- ============================================================================

/-- Decimal digits to a natural number. -/
def digitsToNat (ds : List Char) : Nat :=
  ds.foldl (fun a c => a * 10 + (c.toNat - '0'.toNat)) 0

/-- JavaScript `parseInt(s)` restricted to base 10: skip leading whitespace,
optional sign, then a maximal run of decimal digits; `none` models NaN.
(The hexadecimal auto-detection of `parseInt` never arises for the season
markers this code parses, which are digit strings or a lone dash.) -/
def jsParseInt (s : String) : Option Int :=
  let body : List Char → Option Nat := fun l =>
    let ds := l.takeWhile Char.isDigit
    if ds.isEmpty then none else some (digitsToNat ds)
  match s.data.dropWhile Char.isWhitespace with
  | '-' :: rest => (body rest).map (fun n => -(n : Int))
  | '+' :: rest => (body rest).map (fun n => (n : Int))
  | rest => (body rest).map (fun n => (n : Int))

/-- The season computation `parseInt(match[1]) || 1` of
`resolveEpisodeInfo` (episode.ts line 112): NaN and 0 are both falsy. -/
def parseIntOr1 (s : String) : Int :=
  match jsParseInt s with
  | none => 1
  | some z => if z = 0 then 1 else z

/-- Lower-cased character list of a string (for case-insensitive patterns). -/
def lcData (s : String) : List Char :=
  s.data.map Char.toLower

-- ============================================================================
-- PATTERN SEMANTICS (src/utils/patterns.ts)
-- ============================================================================

/-- Character admitted by the class written as not-bracket-not-paren in the
resolution pattern. -/
def nonClose (c : Char) : Bool :=
  !(c == ']' || c == ')')

/-- Tail of the resolution pattern: digits, `p`, an optional
space-plus-tag-text group, then `]` or `)`.  Input is lower-cased. -/
def resTail (l : List Char) : Option Nat :=
  let ds := l.takeWhile Char.isDigit
  if ds.isEmpty then none
  else
    match l.drop ds.length with
    | 'p' :: rest2 =>
      match rest2 with
      | ']' :: _ => some (digitsToNat ds)
      | ')' :: _ => some (digitsToNat ds)
      | ' ' :: rest3 =>
        (match rest3.dropWhile nonClose with
         | ']' :: _ => some (digitsToNat ds)
         | ')' :: _ => some (digitsToNat ds)
         | _ => none)
      | _ => none
    | _ => none

/-- Greedy attempts for the optional leading tag-text group of the resolution
pattern (non-bracket characters ending in a space), longest consumption
first, then the empty alternative. -/
def resSplits : Nat → List Char → Option Nat
  | 0, l => resTail l
  | m + 1, l =>
    match (if l[m]? == some ' ' then resTail (l.drop (m + 1)) else none) with
    | some v => some v
    | none => resSplits m l

/-- The resolution pattern starting right after an opening `[` or `(`. -/
def resAfterOpen (l : List Char) : Option Nat :=
  resSplits (l.takeWhile nonClose).length l

/-- Leftmost match of the resolution pattern over a lower-cased character
list. -/
def resSearch : List Char → Option Nat
  | [] => none
  | c :: t =>
    match (if c == '[' || c == '(' then resAfterOpen t else none) with
    | some v => some v
    | none => resSearch t

/-- `patterns.resolution` applied with `.match` and `parseInt` of group 1:
the integer of the first bracket/paren-delimited `<N>p` token
(case-insensitive, tag text allowed around the token). -/
def resolutionOf (s : String) : Option Nat :=
  resSearch (lcData s)

/-- Inside-bracket scan for the HEVC pattern: a (lower-cased) `hevc` with a
`]` somewhere after it. -/
def hevcFrom : List Char → Bool
  | [] => false
  | c :: t =>
    (c == 'h' && ['e', 'v', 'c'].isPrefixOf t && (t.drop 3).contains ']') || hevcFrom t

/-- Leftmost scan for the HEVC pattern: some `[` with `hevc` and a later `]`
after it. -/
def hevcSearch : List Char → Bool
  | [] => false
  | c :: t => (c == '[' && hevcFrom t) || hevcSearch t

/-- `patterns.hevc.test`: the case-insensitive pattern requiring `[`, then
`HEVC`, then `]`, in that order (with arbitrary text in between). -/
def hevcTest (s : String) : Bool :=
  hevcSearch (lcData s)

/-- Tail of the version pattern after the episode key: `v` plus digits. -/
def verTail (l : List Char) : Option Nat :=
  match l with
  | 'v' :: rest =>
    let ds := rest.takeWhile Char.isDigit
    if ds.isEmpty then none else some (digitsToNat ds)
  | _ => none

/-- Leftmost occurrence of (lower-cased) `key` followed by `v<digits>`. -/
def verSearch (key : List Char) : List Char → Option Nat
  | [] => none
  | c :: t =>
    match (if key.isPrefixOf (c :: t) then verTail ((c :: t).drop key.length) else none) with
    | some v => some v
    | none => verSearch key t

/-- `patterns.versioned(episodeKey)` applied with `.match` and `parseInt` of
group 1 (case-insensitive; the key text is matched literally, which is the
case for every key the episode patterns can produce). -/
def versionOf (key : String) (s : String) : Option Nat :=
  verSearch (lcData key) (lcData s)

-- ============================================================================
-- DEFAULT EXTRACTION PATTERNS (patterns.ts defaultPatterns)
-- ============================================================================

/-- A match result in the shape of a JavaScript match array:
slot 0 is the whole match, later slots are the capture groups. -/
abbrev MatchSlots := List String

/-- A compiled pattern, embedded by its match function on whole titles. -/
abbrev PatternFn := String → Option MatchSlots

/-- Case-insensitive character comparison. -/
def ciEq (a b : Char) : Bool :=
  a.toLower == b.toLower

/-- First default pattern `S(\d+)E(\d+)` with the `i` flag, matching at the
head of the list; returns (whole match, season digits, episode digits). -/
def sePatAt (l : List Char) : Option MatchSlots :=
  match l with
  | c :: t =>
    if ciEq c 'S' then
      let d1 := t.takeWhile Char.isDigit
      if d1.isEmpty then none
      else
        match t.drop d1.length with
        | e :: t2 =>
          if ciEq e 'E' then
            let d2 := t2.takeWhile Char.isDigit
            if d2.isEmpty then none
            else some [⟨c :: (d1 ++ e :: d2)⟩, ⟨d1⟩, ⟨d2⟩]
          else none
        | [] => none
    else none
  | [] => none

/-- Leftmost-match scan for `S(\d+)E(\d+)/i`. -/
def sePatSearch : List Char → Option MatchSlots
  | [] => none
  | c :: t =>
    match sePatAt (c :: t) with
    | some r => some r
    | none => sePatSearch t

/-- `defaultPatterns[0]` = `/S(\d+)E(\d+)/i`. -/
def defaultPattern1 : PatternFn := fun s => sePatSearch s.data

/-- Second default pattern `S(\d+)\s-\s(\d+)` (case-sensitive `S`),
matching at the head of the list. -/
def sdashPatAt (l : List Char) : Option MatchSlots :=
  match l with
  | 'S' :: t =>
    let d1 := t.takeWhile Char.isDigit
    if d1.isEmpty then none
    else
      match t.drop d1.length with
      | w1 :: '-' :: w2 :: t2 =>
        if w1.isWhitespace && w2.isWhitespace then
          let d2 := t2.takeWhile Char.isDigit
          if d2.isEmpty then none
          else some [⟨'S' :: (d1 ++ w1 :: '-' :: w2 :: d2)⟩, ⟨d1⟩, ⟨d2⟩]
        else none
      | _ => none
  | _ => none

/-- Leftmost-match scan for `/S(\d+)\s-\s(\d+)/`. -/
def sdashPatSearch : List Char → Option MatchSlots
  | [] => none
  | c :: t =>
    match sdashPatAt (c :: t) with
    | some r => some r
    | none => sdashPatSearch t

/-- `defaultPatterns[1]` = `/S(\d+)\s-\s(\d+)/`. -/
def defaultPattern2 : PatternFn := fun s => sdashPatSearch s.data

/-- Third default pattern `(?:\s)(-)(?:\s)(\d+)`, matching at the head of the
list.  The non-capturing whitespace groups consume, so they belong to the
whole match; group 1 is the literal dash. -/
def dashPatAt (l : List Char) : Option MatchSlots :=
  match l with
  | w1 :: '-' :: w2 :: t =>
    if w1.isWhitespace && w2.isWhitespace then
      let ds := t.takeWhile Char.isDigit
      if ds.isEmpty then none
      else some [⟨w1 :: '-' :: w2 :: ds⟩, "-", ⟨ds⟩]
    else none
  | _ => none

/-- Leftmost-match scan for `/(?:\s)(-)(?:\s)(\d+)/`. -/
def dashPatSearch : List Char → Option MatchSlots
  | [] => none
  | c :: t =>
    match dashPatAt (c :: t) with
    | some r => some r
    | none => dashPatSearch t

/-- `defaultPatterns[2]` = `/(?:\s)(-)(?:\s)(\d+)/`. -/
def defaultPattern3 : PatternFn := fun s => dashPatSearch s.data

-- ============================================================================
-- PATTERN VALIDATION AND RESOLUTION (episode.ts lines 33-72)
-- ============================================================================

/-- A compiled JavaScript regular expression, embedded by its `source` text
and its match function. -/
structure JSRegExp where
  source : String
  exec : String → Option MatchSlots

/-- Count of `(` characters not immediately preceded by a backslash —
the counting pattern of `validatePattern` (episode.ts line 39), whose
lookbehind inspects exactly the one preceding character. -/
def countUnescapedParensAux : Option Char → List Char → Nat
  | _, [] => 0
  | prev, c :: t =>
    (if c == '(' && prev != some '\\' then 1 else 0) + countUnescapedParensAux (some c) t

/-- Count of non-escaped `(` in a pattern text. -/
def countUnescapedParens (s : String) : Nat :=
  countUnescapedParensAux none s.data

/-- `validatePattern` (episode.ts lines 33-44).  `RegExp` construction is
abstracted by a compilation oracle `compile` (`none` models a thrown
exception); the empty string is falsy in the `!pattern` guard, and the group
count is taken on the compiled expression's `source`.  `none` models the
`false` return. -/
def validatePattern (compile : String → Option JSRegExp) (pattern : Option String) :
    Option JSRegExp :=
  match pattern with
  | none => none
  | some p =>
    if p = "" then none
    else
      match compile p with
      | none => none
      | some regex => if countUnescapedParens regex.source = 2 then some regex else none

/-- `defaultPatterns[0]` compiled. -/
def regexDefault1 : JSRegExp :=
  { source := "S(\\d+)E(\\d+)", exec := defaultPattern1 }

/-- `defaultPatterns[1]` compiled. -/
def regexDefault2 : JSRegExp :=
  { source := "S(\\d+)\\s-\\s(\\d+)", exec := defaultPattern2 }

/-- `defaultPatterns[2]` compiled. -/
def regexDefault3 : JSRegExp :=
  { source := "(?:\\s)(-)(?:\\s)(\\d+)", exec := defaultPattern3 }

/-- The built-in default patterns as compiled expressions
(patterns.ts lines 449-453), in their fixed order. -/
def defaultRegExps : List JSRegExp :=
  [regexDefault1, regexDefault2, regexDefault3]

/-- `resolveAnimePattern` (episode.ts lines 52-72), reduced to the
`resolvedPattern` it selects.  `sampleTitle` is optional and, per JavaScript
truthiness, an empty string behaves like an absent sample.  The custom
pattern is tried first, then each default in order; `none` models the `null`
resolved pattern. -/
def resolveAnimePattern (compile : String → Option JSRegExp) (defaults : List JSRegExp)
    (anime : DownloadEntry) (sampleTitle : Option String) : Option JSRegExp :=
  let sampleFalsy : Bool :=
    match sampleTitle with
    | none => true
    | some s => s == ""
  let qualifies : JSRegExp → Bool := fun r =>
    sampleFalsy || (r.exec (sampleTitle.getD "")).isSome
  match validatePattern compile anime.pattern with
  | some customPattern =>
    if qualifies customPattern then some customPattern
    else defaults.find? qualifies
  | none => defaults.find? qualifies

-- ============================================================================
-- EPISODE IDENTITY EXTRACTION (episode.ts lines 80-141)
-- ============================================================================

/-- The invalid-result record shared by the `null`-pattern and failed-match
branches of `resolveEpisodeInfo`. -/
def invalidResolved (t : TorrentData) : ResolvedEpisode :=
  { title := t.title
    magnetLink := t.magnetLink
    size := t.size
    timestamp := t.timestamp
    seasonNumber := 1
    episodeNumber := ""
    episodeKey := none
    isValid := false }

/-- `resolveEpisodeInfo` (episode.ts lines 80-126): requires a match array of
exactly 3 slots; season is 1 for the literal dash and otherwise
`parseInt(group1) || 1`; the episode number is group 2 verbatim and the
episode key is the whole match. -/
def resolveEpisodeInfo (t : TorrentData) (pattern : Option PatternFn) : ResolvedEpisode :=
  match pattern with
  | none => invalidResolved t
  | some p =>
    match p t.title with
    | none => invalidResolved t
    | some slots =>
      if slots.length ≠ 3 then invalidResolved t
      else
        { title := t.title
          magnetLink := t.magnetLink
          size := t.size
          timestamp := t.timestamp
          seasonNumber :=
            if slots.getD 1 "" = "-" then 1 else parseIntOr1 (slots.getD 1 "")
          episodeNumber := slots.getD 2 ""
          episodeKey := some (slots.getD 0 "")
          isValid := true }

/-- `resolveAllEpisodes` (episode.ts lines 134-141): element-wise,
order-preserving extraction. -/
def resolveAllEpisodes (pattern : Option PatternFn) (torrentList : List TorrentData) :
    List ResolvedEpisode :=
  torrentList.map (fun t => resolveEpisodeInfo t pattern)

-- ============================================================================
-- CLEANUP MAP (episode.ts lines 174-193)
-- ============================================================================

/-- `Map.get`. -/
def mapGet : CleanupMap → String → Option EpisodeAttributes
  | [], _ => none
  | (k', v') :: t, k => if k' == k then some v' else mapGet t k

/-- `Map.set`: replace in place, else append. -/
def mapSet : CleanupMap → String → EpisodeAttributes → CleanupMap
  | [], k, v => [(k, v)]
  | (k', v') :: t, k, v => if k' == k then (k, v) :: t else (k', v') :: mapSet t k v

/-- The spread merge `{ season: seasonKey, ...attributes, ...newAttributes }`
of `flagEpisodesForCleanup`: an existing record keeps its season and every
field the update leaves unset; fields present in the update win. -/
def mergeAttributes (seasonKey : Int) (old : Option EpisodeAttributes)
    (newA : PartialAttributes) : EpisodeAttributes :=
  match old with
  | none =>
    { season := seasonKey
      resolution := newA.resolution
      encoding := newA.encoding
      version := newA.version
      timestamp := newA.timestamp }
  | some a =>
    { season := a.season
      resolution := match newA.resolution with | some v => some v | none => a.resolution
      encoding := match newA.encoding with | some v => some v | none => a.encoding
      version := match newA.version with | some v => some v | none => a.version
      timestamp := match newA.timestamp with | some v => some v | none => a.timestamp }

/-- `flagEpisodesForCleanup` (episode.ts lines 182-193), with the module map
passed and returned explicitly. -/
def flagEpisodesForCleanup (m : CleanupMap) (episodeKey : String) (seasonKey : Int)
    (newAttributes : PartialAttributes) : CleanupMap :=
  mapSet m episodeKey (mergeAttributes seasonKey (mapGet m episodeKey) newAttributes)

-- ============================================================================
-- THE FOUR DUPLICATE-RESOLUTION FILTERS (episode.ts lines 198-346)
-- ============================================================================

/-- The duplicate computation shared by all four filters: entries of the
pool that are valid and share the episode key. -/
def duplicatesOf (pool : List ResolvedEpisode) (key : String) : List ResolvedEpisode :=
  pool.filter (fun ep => ep.isValid && ep.episodeKey == some key)

/-- `filterByResolution` (episode.ts lines 198-241).  Returns the keep
decision together with the updated cleanup map.  The `reduce` computing the
winning resolution starts from the accumulator 1080, and an episode without
a resolution token contributes the default 1080. -/
def filterByResolution (pool : List ResolvedEpisode) (episode : ResolvedEpisode)
    (m : CleanupMap) : Bool × CleanupMap :=
  match episode.isValid, episode.episodeKey with
  | true, some key =>
    let dups := duplicatesOf pool key
    if dups.length ≤ 1 then (true, m)
    else if !(dups.any fun r => (resolutionOf r.title).isSome) then (true, m)
    else
      let highest := dups.foldl (fun mx r => max mx ((resolutionOf r.title).getD 1080)) 1080
      (((resolutionOf episode.title).getD 1080) == highest,
       flagEpisodesForCleanup m key episode.seasonNumber { resolution := some highest })
  | _, _ => (false, m)

/-- `filterByHEVC` (episode.ts lines 246-273). -/
def filterByHEVC (pool : List ResolvedEpisode) (episode : ResolvedEpisode)
    (m : CleanupMap) : Bool × CleanupMap :=
  match episode.isValid, episode.episodeKey with
  | true, some key =>
    let dups := duplicatesOf pool key
    if dups.length ≤ 1 then (true, m)
    else if !(dups.any fun r => hevcTest r.title) then (true, m)
    else
      (hevcTest episode.title,
       flagEpisodesForCleanup m key episode.seasonNumber { encoding := some "HEVC" })
  | _, _ => (false, m)

/-- `filterByVersion` (episode.ts lines 278-317).  The versioned pattern is
built from the candidate's own episode key; the `reduce` starts from 1 and
an unversioned duplicate contributes 1. -/
def filterByVersion (pool : List ResolvedEpisode) (episode : ResolvedEpisode)
    (m : CleanupMap) : Bool × CleanupMap :=
  match episode.isValid, episode.episodeKey with
  | true, some key =>
    let dups := duplicatesOf pool key
    if dups.length ≤ 1 then (true, m)
    else if !(dups.any fun r => (versionOf key r.title).isSome) then (true, m)
    else
      let highest := dups.foldl (fun mx r => max mx ((versionOf key r.title).getD 1)) 1
      (((versionOf key episode.title).getD 1) == highest,
       flagEpisodesForCleanup m key episode.seasonNumber { version := some highest })
  | _, _ => (false, m)

/-- `filterByLatestTimestamp` (episode.ts lines 322-346).  Unlike the other
filters there is no signal-presence guard: with two or more duplicates the
key is always flagged, and the candidate is kept iff its timestamp equals
the maximum (so equal-timestamp duplicates are all kept). -/
def filterByLatestTimestamp (pool : List ResolvedEpisode) (episode : ResolvedEpisode)
    (m : CleanupMap) : Bool × CleanupMap :=
  match episode.isValid, episode.episodeKey with
  | true, some key =>
    let dups := duplicatesOf pool key
    if dups.length ≤ 1 then (true, m)
    else
      let latest := dups.foldl (fun mx r => max mx r.timestamp) 0
      (episode.timestamp == latest,
       flagEpisodesForCleanup m key episode.seasonNumber { timestamp := some latest })
  | _, _ => (false, m)

/-- The pure keep decision of a filter (the Boolean the source returns;
independent of the cleanup map, which the filters write but never read). -/
def keepBy (f : List ResolvedEpisode → ResolvedEpisode → CleanupMap → Bool × CleanupMap)
    (pool : List ResolvedEpisode) (episode : ResolvedEpisode) : Bool :=
  (f pool episode []).1

-- ============================================================================
-- THE FILTER CHAIN (src/services/download.ts lines 49-63)
-- ============================================================================

/-- `Array.prototype.filter` with the flagging side effect threaded: the
predicate is evaluated left to right, accumulating cleanup-map updates. -/
def runFilter (f : List ResolvedEpisode → ResolvedEpisode → CleanupMap → Bool × CleanupMap)
    (pool : List ResolvedEpisode) :
    List ResolvedEpisode → CleanupMap → List ResolvedEpisode × CleanupMap
  | [], m => ([], m)
  | e :: rest, m =>
    let r := f pool e m
    let rec' := runFilter f pool rest r.2
    (if r.1 then e :: rec'.1 else rec'.1, rec'.2)

/-- The special-filter chain of `handleDownloadingNewEpisodes`
(download.ts lines 49-63): the list being filtered narrows step by step,
but every filter call receives `validEpisodes` — the original valid set —
as its duplicate pool. -/
def specialFilters (resolvedEpisodes : List ResolvedEpisode) (m : CleanupMap) :
    List ResolvedEpisode × CleanupMap :=
  let validEpisodes := resolvedEpisodes.filter (fun ep => ep.isValid)
  let r1 := runFilter filterByResolution validEpisodes validEpisodes m
  let r2 := runFilter filterByHEVC validEpisodes r1.1 r1.2
  let r3 := runFilter filterByVersion validEpisodes r2.1 r2.2
  runFilter filterByLatestTimestamp validEpisodes r3.1 r3.2

/-- Modelled from the spec: the Duplicate Resolution Engine described in
§4.3 and the "Progressive-pool filter chaining" design note, in which each
filter's candidate pool — the set searched for duplicates — is the previous
filter's output rather than the original valid set.  Used only to compare
the specified behaviour with `specialFilters`, the chain the code runs. -/
def specialFiltersSpec (resolvedEpisodes : List ResolvedEpisode) (m : CleanupMap) :
    List ResolvedEpisode × CleanupMap :=
  let validEpisodes := resolvedEpisodes.filter (fun ep => ep.isValid)
  let r1 := runFilter filterByResolution validEpisodes validEpisodes m
  let r2 := runFilter filterByHEVC r1.1 r1.1 r1.2
  let r3 := runFilter filterByVersion r2.1 r2.1 r2.2
  runFilter filterByLatestTimestamp r3.1 r3.1 r3.2

-- ============================================================================
-- CLEANUP RECONCILER (episode.ts lines 381-443)
-- ============================================================================

/-- Contiguous-sublist test on character lists. -/
def charsInfix (needle : List Char) : List Char → Bool
  | [] => needle.isEmpty
  | c :: t => needle.isPrefixOf (c :: t) || charsInfix needle t

/-- Substring containment, the `String.prototype.includes` test. -/
def strIncludes (hay needle : String) : Bool :=
  charsInfix needle.data hay.data

/-- Lookup of a season folder in the file-list snapshot. -/
def lookupFolder (fileList : List (String × List String)) (name : String) :
    Option (List String) :=
  (fileList.find? (fun p => p.1 == name)).map Prod.snd

/-- JavaScript truthiness of an optional number (absent and 0 are falsy). -/
def truthyNat : Option Nat → Bool
  | some n => n != 0
  | none => false

/-- JavaScript truthiness of an optional string (absent and "" are falsy). -/
def truthyStr : Option String → Bool
  | some s => s != ""
  | none => false

/-- The per-file removal cascade of `cleanupEpisodesHandler`
(episode.ts lines 399-440): the first matching mismatch removes the file and
stops.  `getMTime` abstracts `getDateModified(..).getTime()` in
milliseconds. -/
def shouldRemove (getMTime : String → Nat) (episodePath : String)
    (attrs : EpisodeAttributes) (file : String) : Bool :=
  (truthyNat attrs.version && !(strIncludes file ("v" ++ toString (attrs.version.getD 0)))) ||
  (truthyNat attrs.resolution && !(strIncludes file (toString (attrs.resolution.getD 0) ++ "p"))) ||
  (truthyStr attrs.encoding && !(strIncludes file (attrs.encoding.getD ""))) ||
  (truthyNat attrs.timestamp &&
    decide (getMTime (episodePath ++ "/" ++ file) < (attrs.timestamp.getD 0) * 1000))

/-- `cleanupEpisodesHandler` (episode.ts lines 381-443): with an empty
file-list snapshot it returns before touching the map; otherwise it walks
the map in insertion order, removes mismatching files and finally clears
the map.  Returns the list of removed file paths and the new map. -/
def cleanupEpisodesHandler (getMTime : String → Nat) (rootFolderPath folder : String)
    (fileList : List (String × List String)) (m : CleanupMap) :
    List String × CleanupMap :=
  if fileList.isEmpty then ([], m)
  else
    let removed := m.foldl (fun acc entry =>
      let episodeKey := entry.1
      let attributes := entry.2
      let seasonFolder := "Season " ++ toString attributes.season
      let episodePath := rootFolderPath ++ "/" ++ folder ++ "/" ++ seasonFolder
      match lookupFolder fileList seasonFolder with
      | none => acc
      | some files =>
        let matchingFiles := files.filter (fun file => strIncludes file episodeKey)
        acc ++ (matchingFiles.filter (shouldRemove getMTime episodePath attributes)).map
          (fun file => episodePath ++ "/" ++ file)) []
    (removed, [])

-- ============================================================================
-- CONCRETE INSTANCES (used by counterexamples and witnesses)
-- ============================================================================

/-- A 720p release carrying a bracketed HEVC tag. -/
def trnMixed720 : TorrentData :=
  { title := "Show S01E01 [720p HEVC]", magnetLink := "m1", size := "800MB", timestamp := 100 }

/-- A plain 1080p release of the same episode. -/
def trnMixed1080 : TorrentData :=
  { title := "Show S01E01 [1080p]", magnetLink := "m2", size := "1GB", timestamp := 100 }

/-- Resolved pool mixing a 720p-HEVC and a 1080p release of one episode. -/
def epsMixed : List ResolvedEpisode :=
  resolveAllEpisodes (some defaultPattern1) [trnMixed720, trnMixed1080]

/-- A release with no quality signals at all. -/
def trnPlainA : TorrentData :=
  { title := "Show S01E01", magnetLink := "m1", size := "1GB", timestamp := 100 }

/-- A second signal-free release of the same episode with the same
timestamp. -/
def trnPlainB : TorrentData :=
  { title := "Show S01E01 extra", magnetLink := "m2", size := "1GB", timestamp := 100 }

/-- Resolved pool of two signal-free, equal-timestamp duplicates. -/
def epsPlain : List ResolvedEpisode :=
  resolveAllEpisodes (some defaultPattern1) [trnPlainA, trnPlainB]

/-- First of two same-key releases that both carry an explicit 720p token. -/
def e720a : ResolvedEpisode :=
  resolveEpisodeInfo
    { title := "Show S01E01 [720p]", magnetLink := "m1", size := "800MB", timestamp := 100 }
    (some defaultPattern1)

/-- Second of two same-key releases that both carry an explicit 720p token. -/
def e720b : ResolvedEpisode :=
  resolveEpisodeInfo
    { title := "Other S01E01 [720p]", magnetLink := "m2", size := "800MB", timestamp := 100 }
    (some defaultPattern1)

/-- Pool in which every duplicate explicitly carries 720p. -/
def eps720 : List ResolvedEpisode := [e720a, e720b]

/-- The spec's resolution example, 720p entry. -/
def eSpec720 : ResolvedEpisode :=
  resolveEpisodeInfo
    { title := "Show S01E01 [720p]", magnetLink := "m1", size := "800MB", timestamp := 100 }
    (some defaultPattern1)

/-- The spec's resolution example, 1080p entry. -/
def eSpec1080 : ResolvedEpisode :=
  resolveEpisodeInfo
    { title := "Show S01E01 [1080p]", magnetLink := "m2", size := "1GB", timestamp := 100 }
    (some defaultPattern1)

/-- The spec's resolution-example pool: 720p versus 1080p. -/
def epsSpecRes : List ResolvedEpisode := [eSpec720, eSpec1080]

/-- The claim's HEVC example: the plain `[1080p]` entry. -/
def eHevcOutPlain : ResolvedEpisode :=
  resolveEpisodeInfo
    { title := "Show S01E01 [1080p]", magnetLink := "m1", size := "1GB", timestamp := 100 }
    (some defaultPattern1)

/-- The claim's HEVC example: the entry whose `HEVC` stands outside the
brackets. -/
def eHevcOutTag : ResolvedEpisode :=
  resolveEpisodeInfo
    { title := "Show S01E01 [1080p] HEVC", magnetLink := "m2", size := "600MB", timestamp := 101 }
    (some defaultPattern1)

/-- Pool for the claim's HEVC example pair. -/
def epsHevcOut : List ResolvedEpisode := [eHevcOutPlain, eHevcOutTag]

/-- A release whose HEVC tag is properly inside the brackets. -/
def eHevcIn : ResolvedEpisode :=
  resolveEpisodeInfo
    { title := "Show S01E01 [1080p HEVC]", magnetLink := "m1", size := "600MB", timestamp := 100 }
    (some defaultPattern1)

/-- A plain release duplicated against the bracketed-HEVC one. -/
def eHevcInPlain : ResolvedEpisode :=
  resolveEpisodeInfo
    { title := "Show S01E01 [1080p]", magnetLink := "m2", size := "1GB", timestamp := 100 }
    (some defaultPattern1)

/-- Pool pairing a bracketed-HEVC release with a plain one. -/
def epsHevcIn : List ResolvedEpisode := [eHevcIn, eHevcInPlain]

/-- A stale cleanup record flagged in an earlier pass. -/
def attrsStale : EpisodeAttributes := { season := 1, timestamp := some 100 }

/-- A compilation oracle that compiles every pattern text to a regex whose
source is that text (match behaviour irrelevant to validation). -/
def alwaysCompile : String → Option JSRegExp :=
  fun s => some { source := s, exec := fun _ => none }

/-- The compiled custom pattern used by the validation witnesses. -/
def regexSE : JSRegExp :=
  { source := "(S\\d+)E(\\d+)", exec := fun _ => none }

/-- A series entry with no custom pattern. -/
def animeNoPattern : DownloadEntry :=
  { folder := "Anime", uploader := "u", query := "q", complete := false, pattern := none }

/-- A compilation oracle whose compiled expressions match with the
`S<digits>E<digits>` semantics (used to exercise a custom pattern that
matches the sample title). -/
def compileCustomSE : String → Option JSRegExp :=
  fun s => some { source := s, exec := defaultPattern1 }

/-- The compiled custom pattern `(S\d+)E(\d+)` under `compileCustomSE`. -/
def regexCustomSE : JSRegExp :=
  { source := "(S\\d+)E(\\d+)", exec := defaultPattern1 }

/-- A series entry carrying the two-group custom pattern. -/
def animeCustomSE : DownloadEntry :=
  { folder := "Anime", uploader := "u", query := "q", complete := false,
    pattern := some "(S\\d+)E(\\d+)" }

/-- The torrent of the dash-pattern witness. -/
def trnDash : TorrentData :=
  { title := "Show - 05", magnetLink := "m", size := "1GB", timestamp := 5 }

/-- The torrent of the season-zero coercion example. -/
def trnSeason0 : TorrentData :=
  { title := "Show S00E01", magnetLink := "m", size := "1GB", timestamp := 5 }

-- ============================================================================
-- SHARED LEMMAS
-- ============================================================================

/-- The resolution filter's keep decision ignores the cleanup-map state. -/
theorem filterByResolution_fst (pool : List ResolvedEpisode) (e : ResolvedEpisode)
    (m : CleanupMap) : (filterByResolution pool e m).1 = keepBy filterByResolution pool e := by
  unfold keepBy filterByResolution
  cases e.isValid <;> cases e.episodeKey <;> simp only
  split
  · rfl
  · split <;> rfl

/-- The HEVC filter's keep decision ignores the cleanup-map state. -/
theorem filterByHEVC_fst (pool : List ResolvedEpisode) (e : ResolvedEpisode)
    (m : CleanupMap) : (filterByHEVC pool e m).1 = keepBy filterByHEVC pool e := by
  unfold keepBy filterByHEVC
  cases e.isValid <;> cases e.episodeKey <;> simp only
  split
  · rfl
  · split <;> rfl

/-- The version filter's keep decision ignores the cleanup-map state. -/
theorem filterByVersion_fst (pool : List ResolvedEpisode) (e : ResolvedEpisode)
    (m : CleanupMap) : (filterByVersion pool e m).1 = keepBy filterByVersion pool e := by
  unfold keepBy filterByVersion
  cases e.isValid <;> cases e.episodeKey <;> simp only
  split
  · rfl
  · split <;> rfl

/-- The timestamp filter's keep decision ignores the cleanup-map state. -/
theorem filterByLatestTimestamp_fst (pool : List ResolvedEpisode) (e : ResolvedEpisode)
    (m : CleanupMap) :
    (filterByLatestTimestamp pool e m).1 = keepBy filterByLatestTimestamp pool e := by
  unfold keepBy filterByLatestTimestamp
  cases e.isValid <;> cases e.episodeKey <;> simp only
  split <;> rfl

/-- Running one filter over a subject list keeps exactly the entries its pure
decision accepts, regardless of the threaded cleanup map. -/
theorem runFilter_fst (f : List ResolvedEpisode → ResolvedEpisode → CleanupMap → Bool × CleanupMap)
    (hf : ∀ pool e m, (f pool e m).1 = keepBy f pool e)
    (pool subject : List ResolvedEpisode) (m : CleanupMap) :
    (runFilter f pool subject m).1 = subject.filter (keepBy f pool) := by
  induction subject generalizing m with
  | nil => rfl
  | cons e rest ih =>
    simp only [runFilter, List.filter_cons, hf, ih]

/-- Collapsing four chained filters over one list into a single filter with
the conjunction of the four decisions. -/
theorem filter_four (l : List ResolvedEpisode) (p1 p2 p3 p4 : ResolvedEpisode → Bool) :
    ((((l.filter p1).filter p2).filter p3).filter p4) =
      l.filter (fun e => p1 e && p2 e && p3 e && p4 e) := by
  simp only [List.filter_filter]
  apply List.filter_congr
  intro x _
  cases p1 x <;> cases p2 x <;> cases p3 x <;> cases p4 x <;> rfl

-- ============================================================================
-- C1 — FILTER ORDER AND CANDIDATE POOLS
-- ============================================================================

/-- C1 (amended): the special-filter chain applies the four filters in the
fixed order resolution, encoding, version, recency, each narrowing the
previous filter's survivor list — but every filter's duplicate pool is the
original valid-episode set, so the survivors are exactly the valid episodes
accepted by all four decisions taken against that original pool. -/
theorem specialFilters_fixed_order_original_pool (l : List ResolvedEpisode) (m : CleanupMap) :
    (specialFilters l m).1 =
      (l.filter fun ep => ep.isValid).filter fun e =>
        keepBy filterByResolution (l.filter fun ep => ep.isValid) e &&
        keepBy filterByHEVC (l.filter fun ep => ep.isValid) e &&
        keepBy filterByVersion (l.filter fun ep => ep.isValid) e &&
        keepBy filterByLatestTimestamp (l.filter fun ep => ep.isValid) e := by
  simp only [specialFilters]
  rw [runFilter_fst _ filterByLatestTimestamp_fst,
      runFilter_fst _ filterByVersion_fst,
      runFilter_fst _ filterByHEVC_fst,
      runFilter_fst _ filterByResolution_fst,
      filter_four]

/-- C1 (counterexample): with a 720p-HEVC release and a 1080p release of the
same episode, the chain the code runs eliminates everything — the HEVC
filter still sees the resolution-eliminated 720p-HEVC entry in its pool —
while the progressive-pool chain described by the spec keeps the 1080p
release. -/
theorem specialFilters_pool_is_not_previous_output :
    (specialFilters epsMixed []).1 = []
    ∧ (specialFiltersSpec epsMixed []).1.map (fun e => e.title) = ["Show S01E01 [1080p]"] := by
  constructor
  · rfl
  · rfl

-- ============================================================================
-- C2 — SURVIVOR COUNT PER EPISODE KEY
-- ============================================================================

/-- An episode kept by the resolution filter is necessarily valid. -/
theorem keepRes_isValid (pool : List ResolvedEpisode) (e : ResolvedEpisode)
    (h : keepBy filterByResolution pool e = true) : e.isValid = true := by
  cases hv : e.isValid
  · unfold keepBy filterByResolution at h
    rw [hv] at h
    cases hk : e.episodeKey <;> rw [hk] at h <;> simp at h
  · rfl

/-- With two or more duplicates in the pool, the timestamp filter keeps a
candidate exactly when its timestamp equals the fold maximum. -/
theorem keepTime_eq_of_many (pool : List ResolvedEpisode) (e : ResolvedEpisode) (k : String)
    (hv : e.isValid = true) (hk : e.episodeKey = some k)
    (hd : 2 ≤ (duplicatesOf pool k).length) :
    keepBy filterByLatestTimestamp pool e =
      (e.timestamp == (duplicatesOf pool k).foldl (fun mx r => max mx r.timestamp) 0) := by
  unfold keepBy filterByLatestTimestamp
  rw [hv, hk]
  simp only
  split
  · omega
  · rfl

/-- A list of pairwise-distinct measures that is constant has at most one
element. -/
theorem length_le_one_of_pairwise_of_const {α : Type} (f : α → Nat) (M : Nat) :
    ∀ s : List α, s.Pairwise (fun a b => f a ≠ f b) → (∀ e ∈ s, f e = M) →
      s.length ≤ 1
  | [], _, _ => by simp
  | [_], _, _ => by simp
  | a :: b :: _, hp, hc => by
    exfalso
    have hab : f a ≠ f b := (List.pairwise_cons.mp hp).1 b (by simp)
    have ha : f a = M := hc a (by simp)
    have hb : f b = M := hc b (by simp)
    exact hab (ha.trans hb.symm)

/-- Among the valid episodes, the duplicate set of a key is just the
key-equality filter. -/
theorem duplicatesOf_valid (l : List ResolvedEpisode) (k : String) :
    duplicatesOf (l.filter fun ep => ep.isValid) k =
      (l.filter fun ep => ep.isValid).filter fun ep => ep.episodeKey == some k := by
  unfold duplicatesOf
  apply List.filter_congr
  intro x hx
  have hval : x.isValid = true := (List.mem_filter.mp hx).2
  rw [hval]
  rfl

/-- Filtering survivors of any decision `c` that implies the resolution and
timestamp keeps down to one key leaves at most one entry, when the key's
duplicates have pairwise distinct timestamps. -/
theorem filter_keyed_le_one (l : List ResolvedEpisode) (k : String)
    (hdist : (duplicatesOf (l.filter fun ep => ep.isValid) k).Pairwise
      (fun a b => a.timestamp ≠ b.timestamp))
    (c : ResolvedEpisode → Bool)
    (hc : ∀ e, c e = true → keepBy filterByResolution (l.filter fun ep => ep.isValid) e = true
        ∧ keepBy filterByLatestTimestamp (l.filter fun ep => ep.isValid) e = true) :
    ((((l.filter fun ep => ep.isValid).filter c)).filter
        fun e => e.episodeKey == some k).length ≤ 1 := by
  set valid := l.filter fun ep => ep.isValid with hvalid
  set D := duplicatesOf valid k with hD
  have hDeq : D = valid.filter fun ep => ep.episodeKey == some k := duplicatesOf_valid l k
  have hsub : List.Sublist ((valid.filter c).filter fun e => e.episodeKey == some k) D := by
    rw [hDeq]
    exact (List.filter_sublist valid).filter _
  by_cases hlen : 2 ≤ D.length
  · apply length_le_one_of_pairwise_of_const
      (fun e => e.timestamp) (D.foldl (fun mx r => max mx r.timestamp) 0)
    · exact hdist.sublist hsub
    · intro e he
      have h1 := List.mem_filter.mp he
      have h2 := List.mem_filter.mp h1.1
      have hkeq : e.episodeKey = some k := by
        have := h1.2
        simpa using this
      have hkeeps := hc e h2.2
      have hval : e.isValid = true := keepRes_isValid valid e hkeeps.1
      have hchar := keepTime_eq_of_many valid e k hval hkeq (by rw [← hD]; exact hlen)
      rw [hkeeps.2] at hchar
      have hts := eq_of_beq hchar.symm
      rw [← hD] at hts
      exact hts
  · exact le_trans hsub.length_le (by omega)

/-- C2 (amended): at most one candidate per episode key survives the filter
chain provided the valid candidates sharing that key have pairwise distinct
timestamps; with equal timestamps several can survive, and zero survivors
are possible when an earlier filter eliminates every duplicate. -/
theorem specialFilters_at_most_one_per_key (l : List ResolvedEpisode) (m : CleanupMap)
    (k : String)
    (hdist : (duplicatesOf (l.filter fun ep => ep.isValid) k).Pairwise
      (fun a b => a.timestamp ≠ b.timestamp)) :
    ((specialFilters l m).1.filter fun e => e.episodeKey == some k).length ≤ 1 := by
  rw [specialFilters_fixed_order_original_pool]
  apply filter_keyed_le_one l k hdist
  intro e hce
  simp only [Bool.and_eq_true] at hce
  exact ⟨hce.1.1.1, hce.2⟩

/-- C2 (counterexample): two valid same-key releases with no quality signals
and equal timestamps both survive the whole chain, so "exactly one survivor
per key" fails (two survive; the C1 counterexample also shows zero is
possible). -/
theorem specialFilters_two_survivors :
    ((epsPlain.filter fun e => e.isValid && e.episodeKey == some "S01E01").length = 2)
    ∧ ((specialFilters epsPlain []).1.filter fun e => e.episodeKey == some "S01E01").length = 2 := by
  constructor
  · rfl
  · rfl

/-- C2 (witness): on a pool with two distinct-timestamp duplicates the chain
leaves at most one survivor for the key. -/
theorem specialFilters_at_most_one_per_key_witness :
    (duplicatesOf (epsHevcOut.filter fun ep => ep.isValid) "S01E01").Pairwise
      (fun a b => a.timestamp ≠ b.timestamp)
    ∧ ((specialFilters epsHevcOut []).1.filter
        fun e => e.episodeKey == some "S01E01").length ≤ 1 :=
  ⟨by decide, specialFilters_at_most_one_per_key epsHevcOut [] "S01E01" (by decide)⟩

-- ============================================================================
-- C3 — RESOLUTION FILTER
-- ============================================================================

/-- C3 (amended): when at least two valid episodes share a key and at least
one duplicate carries a resolution token, the winning resolution is the
maximum of the default 1080 and the duplicates' values (the fold starts at
1080, so the winning value never falls below 1080 even when every duplicate
is explicitly lower); a candidate is kept iff its own value — 1080 when it
has no token — equals that maximum.  The spec's 720p/1080p example behaves
as stated: only the 1080p entry survives. -/
theorem filterByResolution_keeps_iff_max_with_floor
    (pool : List ResolvedEpisode) (e : ResolvedEpisode) (k : String)
    (hv : e.isValid = true) (hk : e.episodeKey = some k)
    (hd : 2 ≤ (duplicatesOf pool k).length)
    (hs : (duplicatesOf pool k).any (fun r => (resolutionOf r.title).isSome) = true) :
    (keepBy filterByResolution pool e = true ↔
      (resolutionOf e.title).getD 1080 =
        (duplicatesOf pool k).foldl (fun mx r => max mx ((resolutionOf r.title).getD 1080)) 1080)
    ∧ keepBy filterByResolution epsSpecRes eSpec720 = false
    ∧ keepBy filterByResolution epsSpecRes eSpec1080 = true := by
  refine ⟨?_, rfl, rfl⟩
  unfold keepBy filterByResolution
  rw [hv, hk]
  simp only
  split
  · omega
  · split
    · rename_i hcond
      rw [hs] at hcond
      simp at hcond
    · simp

/-- C3 (counterexample): with two same-key releases both explicitly tagged
720p, the maximum over the duplicates' signal values is 720 and the claim
would keep both — but the filter eliminates both, because its fold seeds the
maximum with the default 1080. -/
theorem filterByResolution_eliminates_all_720 :
    resolutionOf e720a.title = some 720
    ∧ resolutionOf e720b.title = some 720
    ∧ (duplicatesOf eps720 "S01E01").length = 2
    ∧ keepBy filterByResolution eps720 e720a = false
    ∧ keepBy filterByResolution eps720 e720b = false :=
  ⟨rfl, rfl, rfl, rfl, rfl⟩

/-- C3 (witness): the amended characterisation instantiated on the spec's
720p/1080p example pool. -/
theorem filterByResolution_keeps_iff_max_with_floor_witness :
    eSpec1080.isValid = true
    ∧ eSpec1080.episodeKey = some "S01E01"
    ∧ 2 ≤ (duplicatesOf epsSpecRes "S01E01").length
    ∧ (duplicatesOf epsSpecRes "S01E01").any (fun r => (resolutionOf r.title).isSome) = true
    ∧ (keepBy filterByResolution epsSpecRes eSpec1080 = true ↔
        (resolutionOf eSpec1080.title).getD 1080 =
          (duplicatesOf epsSpecRes "S01E01").foldl
            (fun mx r => max mx ((resolutionOf r.title).getD 1080)) 1080) :=
  ⟨rfl, rfl, by decide, by decide,
    (filterByResolution_keeps_iff_max_with_floor epsSpecRes eSpec1080 "S01E01"
      rfl rfl (by decide) (by decide)).1⟩

-- ============================================================================
-- C4 — HEVC FILTER
-- ============================================================================

/-- C4 (amended): when at least two valid episodes share a key and some
duplicate's title matches the bracketed-HEVC pattern, an episode is kept iff
its own title matches that pattern — which requires a closing bracket after
the (case-insensitive) HEVC text, so a pair tagged inside the brackets
behaves as the claim's example intends, but a trailing `HEVC` outside the
brackets is not an HEVC marker at all. -/
theorem filterByHEVC_keeps_iff_bracketed
    (pool : List ResolvedEpisode) (e : ResolvedEpisode) (k : String)
    (hv : e.isValid = true) (hk : e.episodeKey = some k)
    (hd : 2 ≤ (duplicatesOf pool k).length)
    (hs : (duplicatesOf pool k).any (fun r => hevcTest r.title) = true) :
    keepBy filterByHEVC pool e = hevcTest e.title
    ∧ keepBy filterByHEVC epsHevcIn eHevcIn = true
    ∧ keepBy filterByHEVC epsHevcIn eHevcInPlain = false := by
  refine ⟨?_, rfl, rfl⟩
  unfold keepBy filterByHEVC
  rw [hv, hk]
  simp only
  split
  · omega
  · split
    · rename_i hcond
      rw [hs] at hcond
      simp at hcond
    · rfl

/-- C4 (counterexample): in the claim's own example pair, the title
`Show S01E01 [1080p] HEVC` does not match the HEVC pattern (no bracket
closes after the HEVC text), so no duplicate exposes the signal and the
filter keeps both entries — not only the HEVC-suffixed one. -/
theorem filterByHEVC_keeps_outside_tag_pair :
    hevcTest "Show S01E01 [1080p] HEVC" = false
    ∧ (duplicatesOf epsHevcOut "S01E01").length = 2
    ∧ keepBy filterByHEVC epsHevcOut eHevcOutPlain = true
    ∧ keepBy filterByHEVC epsHevcOut eHevcOutTag = true :=
  ⟨rfl, rfl, rfl, rfl⟩

/-- C4 (witness): the amended characterisation instantiated on the
bracket-tagged pair. -/
theorem filterByHEVC_keeps_iff_bracketed_witness :
    eHevcIn.isValid = true
    ∧ eHevcIn.episodeKey = some "S01E01"
    ∧ 2 ≤ (duplicatesOf epsHevcIn "S01E01").length
    ∧ (duplicatesOf epsHevcIn "S01E01").any (fun r => hevcTest r.title) = true
    ∧ keepBy filterByHEVC epsHevcIn eHevcIn = hevcTest eHevcIn.title :=
  ⟨rfl, rfl, by decide, by decide,
    (filterByHEVC_keeps_iff_bracketed epsHevcIn eHevcIn "S01E01"
      rfl rfl (by decide) (by decide)).1⟩

-- ============================================================================
-- C5 — CLEANUP MAP LIFETIME
-- ============================================================================

/-- C5 (amended): the cleanup handler clears the flagged map only when the
file-list snapshot is non-empty; with an empty snapshot it returns before
the clearing step, removing nothing and leaving every flagged entry in
place for the next pass. -/
theorem cleanupEpisodesHandler_clears_iff_nonempty
    (getMTime : String → Nat) (root folder : String)
    (fileList : List (String × List String)) (m : CleanupMap)
    (h : fileList ≠ []) :
    (cleanupEpisodesHandler getMTime root folder fileList m).2 = []
    ∧ cleanupEpisodesHandler getMTime root folder [] m = ([], m) := by
  constructor
  · unfold cleanupEpisodesHandler
    have hne : fileList.isEmpty = false := by
      simpa using h
    rw [hne]
    simp
  · rfl

/-- C5 (counterexample): a call with an empty file-list snapshot leaves the
(non-empty) cleanup map untouched, so it is not true that the map is empty
after every call. -/
theorem cleanupEpisodesHandler_empty_snapshot_keeps_map :
    cleanupEpisodesHandler (fun _ => 0) "/downloads" "Anime" [] [("S01E01", attrsStale)]
      = ([], [("S01E01", attrsStale)])
    ∧ ([("S01E01", attrsStale)] : CleanupMap) ≠ [] :=
  ⟨rfl, by decide⟩

/-- C5 (witness): a non-empty snapshot clears the map; the empty snapshot is
an identity on it. -/
theorem cleanupEpisodesHandler_clears_iff_nonempty_witness :
    ([("Season 1", ["file.mkv"])] : List (String × List String)) ≠ []
    ∧ (cleanupEpisodesHandler (fun _ => 0) "/downloads" "Anime"
        [("Season 1", ["file.mkv"])] [("S01E01", attrsStale)]).2 = []
    ∧ cleanupEpisodesHandler (fun _ => 0) "/downloads" "Anime" [] [("S01E01", attrsStale)]
        = ([], [("S01E01", attrsStale)]) :=
  ⟨by decide,
    (cleanupEpisodesHandler_clears_iff_nonempty (fun _ => 0) "/downloads" "Anime"
      [("Season 1", ["file.mkv"])] [("S01E01", attrsStale)] (by decide)).1,
    (cleanupEpisodesHandler_clears_iff_nonempty (fun _ => 0) "/downloads" "Anime"
      [("Season 1", ["file.mkv"])] [("S01E01", attrsStale)] (by decide)).2⟩

-- ============================================================================
-- C6 — CLEANUP ATTRIBUTE RECORDING
-- ============================================================================

/-- Setting a key makes it retrievable with the stored value. -/
theorem mapGet_mapSet_self (m : CleanupMap) (k : String) (v : EpisodeAttributes) :
    mapGet (mapSet m k v) k = some v := by
  induction m with
  | nil => simp [mapSet, mapGet]
  | cons hd t ih =>
    obtain ⟨k', v'⟩ := hd
    by_cases hk : k' == k
    · simp [mapSet, mapGet, hk]
    · simp [mapSet, mapGet, hk, ih]

/-- C6 (amended): whenever at least two valid candidates share a key, the
timestamp filter records the timestamp dimension for that key with the
winning (maximum) timestamp — no difference between the candidates is
required, so the dimension is set even when every duplicate has the same
timestamp, and a file older than the recorded value can then be removed. -/
theorem filterByLatestTimestamp_always_flags
    (pool : List ResolvedEpisode) (e : ResolvedEpisode) (k : String) (m : CleanupMap)
    (hv : e.isValid = true) (hk : e.episodeKey = some k)
    (hd : 2 ≤ (duplicatesOf pool k).length) :
    ∃ a, mapGet ((filterByLatestTimestamp pool e m).2) k = some a
      ∧ a.timestamp =
          some ((duplicatesOf pool k).foldl (fun mx r => max mx r.timestamp) 0) := by
  unfold filterByLatestTimestamp
  rw [hv, hk]
  simp only
  split
  · omega
  · refine ⟨mergeAttributes e.seasonNumber (mapGet m k)
      { timestamp := some ((duplicatesOf pool k).foldl (fun mx r => max mx r.timestamp) 0) },
      ?_, ?_⟩
    · unfold flagEpisodesForCleanup
      exact mapGet_mapSet_self m k _
    · unfold mergeAttributes
      cases mapGet m k <;> rfl

/-- C6 (counterexample): with two same-key candidates of equal timestamps
(and no other signals), the chain still records the timestamp dimension for
the key, although the candidates do not differ along that dimension. -/
theorem specialFilters_flags_equal_timestamps :
    (epsPlain.map fun e => e.timestamp) = [100, 100]
    ∧ mapGet ((specialFilters epsPlain []).2) "S01E01"
        = some { season := 1, timestamp := some 100 } :=
  ⟨rfl, rfl⟩

/-- C6 (witness): the flagging fact instantiated on the equal-timestamp
pool. -/
theorem filterByLatestTimestamp_always_flags_witness :
    (resolveEpisodeInfo trnPlainA (some defaultPattern1)).isValid = true
    ∧ (resolveEpisodeInfo trnPlainA (some defaultPattern1)).episodeKey = some "S01E01"
    ∧ 2 ≤ (duplicatesOf epsPlain "S01E01").length
    ∧ ∃ a, mapGet ((filterByLatestTimestamp epsPlain
          (resolveEpisodeInfo trnPlainA (some defaultPattern1)) []).2) "S01E01" = some a
        ∧ a.timestamp = some ((duplicatesOf epsPlain "S01E01").foldl
            (fun mx r => max mx r.timestamp) 0) :=
  ⟨rfl, rfl, by decide,
    filterByLatestTimestamp_always_flags epsPlain
      (resolveEpisodeInfo trnPlainA (some defaultPattern1)) "S01E01" [] rfl rfl (by decide)⟩

-- ============================================================================
-- C7 — PATTERN RESOLUTION ORDER
-- ============================================================================

/-- The search over the built-in defaults is a first-match scan in their
fixed order. -/
theorem find?_defaults_eq (s : String) :
    defaultRegExps.find? (fun p => (p.exec s).isSome) =
      (if (regexDefault1.exec s).isSome then some regexDefault1
       else if (regexDefault2.exec s).isSome then some regexDefault2
       else if (regexDefault3.exec s).isSome then some regexDefault3
       else none) := by
  cases h1 : (regexDefault1.exec s).isSome <;>
  cases h2 : (regexDefault2.exec s).isSome <;>
  cases h3 : (regexDefault3.exec s).isSome <;>
    simp [defaultRegExps, List.find?, h1, h2, h3]

/-- C7: `resolveAnimePattern` tries the valid custom pattern first and then
each built-in default in order.  Without a sample title the first
syntactically valid pattern (the custom one if valid, else the first
default) is accepted unconditionally.  With a (non-empty) sample title, the
valid custom pattern wins whenever it matches the sample; when the custom
pattern is invalid or fails to match, the result is the first default — in
the fixed order `defaultPatterns[0]`, `[1]`, `[2]` — that matches the
sample; and the resolved pattern is `null` exactly when every candidate,
the valid custom pattern and all defaults, fails to match the sample. -/
theorem resolveAnimePattern_custom_first
    (compile : String → Option JSRegExp) (anime : DownloadEntry) :
    (resolveAnimePattern compile defaultRegExps anime none =
      (match validatePattern compile anime.pattern with
       | some r => some r
       | none => defaultRegExps.head?))
    ∧ (∀ s : String,
        (resolveAnimePattern compile defaultRegExps anime (some s) = none ↔
          (s ≠ ""
            ∧ (∀ r, validatePattern compile anime.pattern = some r → r.exec s = none)
            ∧ (∀ r ∈ defaultRegExps, r.exec s = none))))
    ∧ (∀ s : String, s ≠ "" →
        ∀ r, validatePattern compile anime.pattern = some r → (r.exec s).isSome = true →
          resolveAnimePattern compile defaultRegExps anime (some s) = some r)
    ∧ (∀ s : String, s ≠ "" →
        (validatePattern compile anime.pattern = none ∨
          (∃ r, validatePattern compile anime.pattern = some r ∧ r.exec s = none)) →
        resolveAnimePattern compile defaultRegExps anime (some s) =
          (if (regexDefault1.exec s).isSome then some regexDefault1
           else if (regexDefault2.exec s).isSome then some regexDefault2
           else if (regexDefault3.exec s).isSome then some regexDefault3
           else none)) := by
  refine ⟨?_, ?_, ?_, ?_⟩
  · unfold resolveAnimePattern
    cases hval : validatePattern compile anime.pattern <;>
      simp [defaultRegExps, List.find?]
  · intro s
    unfold resolveAnimePattern
    by_cases hs : s = ""
    · subst hs
      cases hval : validatePattern compile anime.pattern <;>
        simp [defaultRegExps, List.find?]
    · have hsb : (s == "") = false := by
        simpa using hs
      cases hval : validatePattern compile anime.pattern
      · simp [hsb, hs, hval, List.find?_eq_none, Option.not_isSome_iff_eq_none]
      · rename_i c
        cases hc : c.exec s
        · simp [hsb, hs, hval, hc, List.find?_eq_none, Option.not_isSome_iff_eq_none]
        · simp [hsb, hs, hval, hc, List.find?_eq_none, Option.not_isSome_iff_eq_none]
  · intro s hs r hval hmatch
    have hsb : (s == "") = false := by
      simpa using hs
    unfold resolveAnimePattern
    simp only
    rw [hval]
    simp [hsb, hmatch]
  · intro s hs hcase
    have hsb : (s == "") = false := by
      simpa using hs
    unfold resolveAnimePattern
    simp only
    rcases hcase with hval | ⟨r, hval, hnone⟩
    · rw [hval]
      simpa [hsb] using find?_defaults_eq s
    · rw [hval]
      simpa [hsb, hnone] using find?_defaults_eq s

/-- C7 (witness): with no custom pattern, the absent-sample call returns the
first default; a valid custom pattern that matches the sample
`Show S01E01` is preferred; with no custom pattern the same sample selects
the first default; and the sample `zzz` (matched by no pattern) resolves to
`null` exactly as characterised. -/
theorem resolveAnimePattern_custom_first_witness :
    resolveAnimePattern (fun _ => none) defaultRegExps animeNoPattern none
        = defaultRegExps.head?
    ∧ ("Show S01E01" : String) ≠ ""
    ∧ validatePattern compileCustomSE animeCustomSE.pattern = some regexCustomSE
    ∧ (regexCustomSE.exec "Show S01E01").isSome = true
    ∧ resolveAnimePattern compileCustomSE defaultRegExps animeCustomSE (some "Show S01E01")
        = some regexCustomSE
    ∧ validatePattern (fun _ => none) animeNoPattern.pattern = none
    ∧ resolveAnimePattern (fun _ => none) defaultRegExps animeNoPattern (some "Show S01E01")
        = some regexDefault1
    ∧ (resolveAnimePattern (fun _ => none) defaultRegExps animeNoPattern (some "zzz") = none ↔
        ("zzz" ≠ ""
          ∧ (∀ r, validatePattern (fun _ => none) animeNoPattern.pattern = some r →
              r.exec "zzz" = none)
          ∧ (∀ r ∈ defaultRegExps, r.exec "zzz" = none))) :=
  ⟨(resolveAnimePattern_custom_first (fun _ => none) animeNoPattern).1,
   by decide,
   rfl,
   rfl,
   (resolveAnimePattern_custom_first compileCustomSE animeCustomSE).2.2.1
     "Show S01E01" (by decide) regexCustomSE rfl rfl,
   rfl,
   ((resolveAnimePattern_custom_first (fun _ => none) animeNoPattern).2.2.2
     "Show S01E01" (by decide) (Or.inl rfl)).trans rfl,
   (resolveAnimePattern_custom_first (fun _ => none) animeNoPattern).2.1 "zzz"⟩

-- ============================================================================
-- C8 — EPISODE IDENTITY EXTRACTION
-- ============================================================================

/-- C8 (amended): `resolveEpisodeInfo` returns the invalid defaults
(season 1, empty episode number, no key) when the pattern is null, the match
fails, or the match array does not have exactly 3 slots; otherwise the
episode number is group 2 verbatim, the key is the whole match, and the
season is group 1 parsed as an integer — except that the literal dash, a
parse failure, *and a parsed value of zero* all yield the default season 1
(the code computes `parseInt(match[1]) || 1`, and 0 is falsy). -/
theorem resolveEpisodeInfo_fields (t : TorrentData) (f : PatternFn) :
    (resolveEpisodeInfo t none = invalidResolved t)
    ∧ (f t.title = none → resolveEpisodeInfo t (some f) = invalidResolved t)
    ∧ (∀ slots, f t.title = some slots → slots.length ≠ 3 →
        resolveEpisodeInfo t (some f) = invalidResolved t)
    ∧ (∀ slots, f t.title = some slots → slots.length = 3 →
        (resolveEpisodeInfo t (some f)).isValid = true
        ∧ (resolveEpisodeInfo t (some f)).episodeKey = some (slots.getD 0 "")
        ∧ (resolveEpisodeInfo t (some f)).episodeNumber = slots.getD 2 ""
        ∧ (slots.getD 1 "" = "-" → (resolveEpisodeInfo t (some f)).seasonNumber = 1)
        ∧ (jsParseInt (slots.getD 1 "") = none →
            (resolveEpisodeInfo t (some f)).seasonNumber = 1)
        ∧ (∀ z : Int, jsParseInt (slots.getD 1 "") = some z →
            (resolveEpisodeInfo t (some f)).seasonNumber = if z = 0 then 1 else z)) := by
  refine ⟨rfl, ?_, ?_, ?_⟩
  · intro h
    unfold resolveEpisodeInfo
    simp only
    rw [h]
  · intro slots h h3
    unfold resolveEpisodeInfo
    simp only
    rw [h]
    simp only
    rw [if_pos h3]
  · intro slots h h3
    unfold resolveEpisodeInfo
    simp only
    rw [h]
    simp only
    rw [if_neg (by simp [h3])]
    refine ⟨rfl, rfl, rfl, ?_, ?_, ?_⟩
    · intro hdash
      rw [if_pos hdash]
    · intro hparse
      by_cases hdash : slots.getD 1 "" = "-"
      · rw [if_pos hdash]
      · simp only [if_neg hdash]
        unfold parseIntOr1
        rw [hparse]
    · intro z hparse
      by_cases hdash : slots.getD 1 "" = "-"
      · rw [hdash] at hparse
        have hnone : jsParseInt "-" = none := rfl
        rw [hnone] at hparse
        cases hparse
      · simp only [if_neg hdash]
        unfold parseIntOr1
        rw [hparse]

/-- C8 (counterexample): for `Show S00E01` the season group `00` parses as
the integer 0, yet the resolved season is 1, not the parsed integer — the
claim's "the parsed integer otherwise" fails on a parsed zero. -/
theorem resolveEpisodeInfo_season_zero_not_parsed :
    defaultPattern1 trnSeason0.title = some ["S00E01", "00", "01"]
    ∧ jsParseInt "00" = some 0
    ∧ (resolveEpisodeInfo trnSeason0 (some defaultPattern1)).seasonNumber = 1
    ∧ (1 : Int) ≠ 0 :=
  ⟨rfl, rfl, rfl, by decide⟩

/-- C8 (witness): the field characterisation on a dash-pattern title —
season 1, verbatim episode number, whole-match key. -/
theorem resolveEpisodeInfo_fields_witness :
    defaultPattern3 trnDash.title = some [" - 05", "-", "05"]
    ∧ ([" - 05", "-", "05"] : List String).length = 3
    ∧ (resolveEpisodeInfo trnDash (some defaultPattern3)).isValid = true
    ∧ (resolveEpisodeInfo trnDash (some defaultPattern3)).episodeKey = some " - 05"
    ∧ (resolveEpisodeInfo trnDash (some defaultPattern3)).episodeNumber = "05"
    ∧ (resolveEpisodeInfo trnDash (some defaultPattern3)).seasonNumber = 1 := by
  have h := (resolveEpisodeInfo_fields trnDash defaultPattern3).2.2.2
    [" - 05", "-", "05"] rfl rfl
  exact ⟨rfl, rfl, h.1, h.2.1, h.2.2.1, h.2.2.2.1 rfl⟩

-- ============================================================================
-- C9 — PATTERN VALIDATION
-- ============================================================================

/-- C9: `validatePattern` accepts exactly the compilable pattern strings with
exactly two non-escaped opening parentheses, and rejects every other count,
every compilation failure, and the absent pattern.  The compilation oracle
stands for `new RegExp`; `r.source = p` states the JavaScript guarantee that
a compiled expression's source is its pattern text. -/
theorem validatePattern_two_groups (compile : String → Option JSRegExp) (p : String)
    (r : JSRegExp) :
    validatePattern compile none = none
    ∧ (compile p = some r → r.source = p → countUnescapedParens p = 2 →
        validatePattern compile (some p) = some r)
    ∧ (compile p = some r → r.source = p → countUnescapedParens p ≠ 2 →
        validatePattern compile (some p) = none)
    ∧ (compile p = none → validatePattern compile (some p) = none) := by
  refine ⟨rfl, ?_, ?_, ?_⟩
  · intro hc hsrc hcount
    have hne : p ≠ "" := by
      intro he
      subst he
      have hzero : countUnescapedParens "" = 0 := rfl
      omega
    unfold validatePattern
    simp only
    rw [if_neg hne, hc]
    simp only
    rw [hsrc, if_pos hcount]
  · intro hc hsrc hcount
    by_cases hne : p = ""
    · subst hne
      rfl
    · unfold validatePattern
      simp only
      rw [if_neg hne, hc]
      simp only
      rw [hsrc, if_neg hcount]
  · intro hc
    by_cases hne : p = ""
    · subst hne
      rfl
    · unfold validatePattern
      simp only
      rw [if_neg hne, hc]

/-- C9 (witness): a two-group pattern is accepted with its compiled
expression. -/
theorem validatePattern_two_groups_witness :
    alwaysCompile "(S\\d+)E(\\d+)" = some regexSE
    ∧ regexSE.source = "(S\\d+)E(\\d+)"
    ∧ countUnescapedParens "(S\\d+)E(\\d+)" = 2
    ∧ validatePattern alwaysCompile (some "(S\\d+)E(\\d+)") = some regexSE :=
  ⟨rfl, rfl, by decide,
    (validatePattern_two_groups alwaysCompile "(S\\d+)E(\\d+)" regexSE).2.1
      rfl rfl (by decide)⟩

-- ============================================================================
-- C10 — SEASON ZERO COERCION
-- ============================================================================

/-- C10: whenever the matched season group parses to the integer 0, the
resolved season number is 1 — a parsed season of zero is coerced to the
default exactly like an unparsable marker, so season 0 is never produced. -/
theorem resolveEpisodeInfo_season_zero_coerced (t : TorrentData) (f : PatternFn)
    (slots : List String) (h1 : f t.title = some slots) (h2 : slots.length = 3)
    (h3 : jsParseInt (slots.getD 1 "") = some 0) :
    (resolveEpisodeInfo t (some f)).seasonNumber = 1 := by
  unfold resolveEpisodeInfo
  simp only
  rw [h1]
  simp only
  rw [if_neg (by simp [h2])]
  by_cases hdash : slots.getD 1 "" = "-"
  · rw [if_pos hdash]
  · simp only [if_neg hdash]
    unfold parseIntOr1
    rw [h3]
    rfl

/-- C10 (witness): the `S00E01` title resolves to season 1. -/
theorem resolveEpisodeInfo_season_zero_coerced_witness :
    defaultPattern1 trnSeason0.title = some ["S00E01", "00", "01"]
    ∧ (["S00E01", "00", "01"] : List String).length = 3
    ∧ jsParseInt "00" = some 0
    ∧ (resolveEpisodeInfo trnSeason0 (some defaultPattern1)).seasonNumber = 1 :=
  ⟨rfl, rfl, rfl,
    resolveEpisodeInfo_season_zero_coerced trnSeason0 defaultPattern1
      ["S00E01", "00", "01"] rfl rfl rfl⟩
